import Mathlib

/-!
# libinjectivetesttube: the bridge surface of the test-tube harness

A shallow embedding of `packages/injective-test-tube/libinjectivetesttube/main.go`.

* The package-level variables `envCounter` and `envRegister` are fields of `World`;
  the mutex `mu` is taken and freed by the steps `Prog.acquire` and `Prog.release`,
  seen in a trace as `Event.lock` and `Event.unlock`.
* `testenv.TestEnv` holds its application through a pointer, so the application
  objects live in a heap (`World.apps`) and a `TestEnv` value carries an address.
* A Go `panic` is the outcome `Outcome.abort`; every exported function is a
  `Prog`, a sequence of atomic steps on the world (a method call that changes the
  application takes two, its start and its end). `Prog.run` runs a call on its
  own, from the world before the call to the outcome, the world after, and the
  trace of registry/lock/application events of the call; `runSchedule` runs two
  calls in flight, one step at a time.
* Everything the file imports (the application, the codecs, the standard
  library) is a field of `Ext`.
-/

namespace TestTube

/-! ## Data crossing the call boundary -/

abbrev Bytes := List Nat

/-- Error kinds of the `result` package (`result.QueryError`, `result.ExecuteError`). -/
inductive ErrKind where
  | QueryError
  | ExecuteError
  deriving DecidableEq, Repr

/-- Modelled from the spec: the `result` package (`EncodeResultFromOk`,
`EncodeResultFromError`) is not part of the sources. §4.5: a result buffer is
either a tag marking "ok" followed by the raw payload bytes, or a tag marking the
error kind followed by the message text of the underlying error. The text-safe
wrapping applied on top of the buffer is left out. -/
inductive ResultBuf where
  | ok (payload : Bytes)
  | error (kind : ErrKind) (msg : String)
  deriving DecidableEq, Repr

/-- Modelled from the spec: `result.EncodeResultFromOk` (success path of §4.5). -/
def EncodeResultFromOk (bytes : Bytes) : ResultBuf := ResultBuf.ok bytes

/-- Modelled from the spec: `result.EncodeResultFromError` (failure path of §4.5);
a Go error is represented by its message text. -/
def EncodeResultFromError (code : ErrKind) (err : String) : ResultBuf :=
  ResultBuf.error code err

/-- The message `abci.RequestDeliverTx`. -/
structure RequestDeliverTx where
  Tx : Bytes
  deriving DecidableEq, Repr

/-- The message `abci.ResponseDeliverTx`; a non-zero `Code` denotes a failed transaction. -/
structure ResponseDeliverTx where
  Code : Nat
  Data : Bytes
  Log : String
  deriving DecidableEq, Repr

/-- The message `sdk.GasInfo`. -/
structure GasInfo where
  GasWanted : Nat
  GasUsed : Nat
  deriving DecidableEq, Repr

/-- The message `codectypes.Any`. -/
structure AnyMsg where
  TypeUrl : String
  Value : Bytes
  deriving DecidableEq, Repr

/-- A parameter set (`paramtypes.ParamSet`): its type identifier and its fields. -/
structure ParamSet where
  TypeUrl : String
  Fields : List (String × Bytes)
  deriving DecidableEq, Repr

/-- The type `sdk.Coins`. -/
abbrev Coins := List (String × Nat)

/-- The part of `sdk.Context` the bridge reads: the block header fields. The block
time is kept in nanoseconds since the Unix epoch. -/
structure Context where
  BlockHeight : Int
  BlockTime : Int
  ChainID : String
  deriving DecidableEq, Repr

/-- Modelled from the spec: the type `testenv.ParamTypeRegistry` is not part of the
sources. §2: it maps a type identifier string to a prototype value usable to unpack
a dynamically-typed, serialized parameter set, and to produce an empty instance. -/
abbrev ParamTypeRegistry := List (String × ParamSet)

/-- Modelled from the spec: the type `testenv.TestEnv` is not part of the sources.
§3: an owning reference to the application object (here its heap address), the
current context, and the parameter-type registry; `Validator` is the fourth
field assigned by `InitTestEnv`. -/
structure TestEnv where
  App : Nat
  Ctx : Context
  ParamTypesRegistry : ParamTypeRegistry
  Validator : Bytes
  deriving DecidableEq, Repr

/-! ## The world and the outcome of a call -/

/-- Package-level state of `main.go` together with the heap of application objects. -/
structure World (σ : Type) where
  /-- The variable `envCounter uint64`. -/
  envCounter : Nat
  /-- The variable `envRegister sync.Map`. -/
  envRegister : Nat → Option TestEnv
  /-- The application object at each address. -/
  apps : Nat → σ
  /-- The next free address. -/
  nextApp : Nat

/-- What a call leaves in its trace. -/
inductive Event where
  | lock
  | unlock
  | load (envId : Nat)
  | store (envId : Nat) (env : TestEnv)
  | app (addr : Nat) (method : String)
  deriving DecidableEq, Repr

/-- How a call ends: it returns a value, or it panics. -/
inductive Outcome (α : Type) where
  | ret (a : α)
  | abort (msg : String)
  deriving DecidableEq, Repr

/-- What running a call gives: how it ended, the world it left, and its trace. -/
structure Run (σ α : Type) where
  out : Outcome α
  world : World σ
  trace : List Event

/-- A call in progress: it has ended, or its next step is an atomic step on the
world (with the events it leaves, the world it makes, and the rest of the call,
which may depend on the world the step read), or `mu.Lock()`, or `mu.Unlock()`.
The atomic steps are a `Load` or a `Store` on the `sync.Map`, one read or one write
of a package-level variable, and the start or the end of an application call. -/
inductive Prog (σ α : Type) : Type where
  | done (o : Outcome α)
  | atom (events : List Event) (upd : World σ → World σ) (next : World σ → Prog σ α)
  | acquire (next : Prog σ α)
  | release (next : Prog σ α)

namespace Prog

variable {σ α β : Type}

/-- Sequencing: a panic in the first part skips the second. -/
def bind : Prog σ α → (α → Prog σ β) → Prog σ β
  | done (Outcome.ret a), f => f a
  | done (Outcome.abort m), _ => done (Outcome.abort m)
  | atom e u k, f => atom e u (fun w => (k w).bind f)
  | acquire k, f => acquire (k.bind f)
  | release k, f => release (k.bind f)

instance : Monad (Prog σ) where
  pure a := done (Outcome.ret a)
  bind := Prog.bind

/-- Go `panic(...)`. -/
def goPanic (msg : String) : Prog σ α := done (Outcome.abort msg)

/-- Reading the package-level state. -/
def get : Prog σ (World σ) := atom [] id (fun w => done (Outcome.ret w))

/-- Writing the package-level state. -/
def modify (f : World σ → World σ) : Prog σ Unit := atom [] f (fun _ => done (Outcome.ret ()))

/-- The effect of `defer mu.Unlock()` on the rest of a function body: the unlock
runs where the body ends, be it by returning or by panicking. -/
def deferUnlock : Prog σ α → Prog σ α
  | done o => release (done o)
  | atom e u k => atom e u (fun w => (k w).deferUnlock)
  | acquire k => acquire k.deferUnlock
  | release k => release k.deferUnlock

/-- The pair `mu.Lock(); defer mu.Unlock()` around the rest of a function body. -/
def withLock (body : Prog σ α) : Prog σ α := acquire body.deferUnlock

/-- Running a call on its own: no other call is in flight, so the mutex is free
when the call asks for it. -/
def run : Prog σ α → World σ → Run σ α
  | done o, w => ⟨o, w, []⟩
  | atom e u k, w =>
    ⟨((k w).run (u w)).out, ((k w).run (u w)).world, e ++ ((k w).run (u w)).trace⟩
  | acquire k, w => ⟨(k.run w).out, (k.run w).world, Event.lock :: (k.run w).trace⟩
  | release k, w => ⟨(k.run w).out, (k.run w).world, Event.unlock :: (k.run w).trace⟩

end Prog

/-! ## What the file imports -/

/-- The collaborators of `main.go`: the standard library, the protobuf codec, the
SDK helpers, the `testenv` package and the application object. An application
method takes the application state and, when it may write, returns the next one. -/
structure Ext (σ : Type) where
  /-- The function `base64.StdEncoding.DecodeString`. -/
  base64Decode : String → Except String Bytes
  /-- The function `base64.StdEncoding.EncodeToString`. -/
  base64Encode : Bytes → String
  /-- The call `json.Unmarshal` into `sdk.Coins`. -/
  jsonUnmarshalCoins : String → Except String Coins
  /-- The call `proto.Unmarshal` into `abci.RequestDeliverTx`. -/
  unmarshalRequestDeliverTx : Bytes → Except String RequestDeliverTx
  /-- The call `proto.Marshal` of an `abci.ResponseDeliverTx`. -/
  marshalResponseDeliverTx : ResponseDeliverTx → Except String Bytes
  /-- The call `proto.Marshal` of an `sdk.GasInfo`. -/
  marshalGasInfo : GasInfo → Except String Bytes
  /-- The call `proto.Unmarshal` into `codectypes.Any`. -/
  unmarshalAny : Bytes → Except String AnyMsg
  /-- The call `proto.Marshal` of a parameter set. -/
  marshalParamSet : ParamSet → Except String Bytes
  /-- The call `proto.Unmarshal` of the value of an `Any` into a prototype. -/
  unmarshalParamSet : ParamSet → Bytes → Except String ParamSet
  /-- The function `sdk.AccAddressFromBech32`. -/
  accAddressFromBech32 : String → Except String Bytes
  /-- The address `sdk.AccAddress(priv.PubKey().Address())` of a private key. -/
  accAddressOfPrivKey : Bytes → Bytes
  /-- The function `testenv.SetupInjectiveApp`: a fresh application and its validator. -/
  SetupInjectiveApp : σ × Bytes
  /-- The registry built by `testenv.NewParamTypeRegistry` and `SetupParamTypes`. -/
  SetupParamTypes : ParamTypeRegistry
  /-- The seeding of the first validator's signing info (`GetAllValidators`,
  `GetConsAddr`, `SlashingKeeper.SetValidatorSigningInfo`). -/
  SetValidatorSigningInfo : Context → σ → σ
  /-- The method `App.BeginBlock`, for the header of the new context. -/
  AppBeginBlock : Context → σ → σ
  /-- The method `App.EndBlock`, for the height of the request. -/
  AppEndBlock : Int → σ → σ
  /-- The method `App.Commit`. -/
  AppCommit : σ → σ
  /-- The method `App.DeliverTx`. -/
  AppDeliverTx : RequestDeliverTx → σ → ResponseDeliverTx × σ
  /-- The method `App.Simulate`; the second component of its Go result is dropped
  by the caller. -/
  AppSimulate : Bytes → σ → Except String GasInfo × σ
  /-- The method `App.GRPCQueryRouter().Route`: `none` is the nil handler; a handler
  yields the `Value` of its response or an error. -/
  Route : σ → String → Option (Context → Bytes → σ → Except String Bytes × σ)
  /-- The function `testutil.FundAccount` over the bank keeper; `some` is its error. -/
  FundAccount : Context → Bytes → Coins → σ → Option String × σ
  /-- The method `AccountKeeper.GetSequence`. -/
  GetSequence : Context → Bytes → σ → Except String Nat
  /-- The method `AccountKeeper.GetAccount` followed by `GetAccountNumber`; `none`
  is the nil account. -/
  GetAccount : Context → Bytes → σ → Option Nat
  /-- The method `ParamsKeeper.GetSubspace`; a subspace is handled by its key. -/
  GetSubspace : σ → String → Option String
  /-- The method `Subspace.SetParamSet`. -/
  SubspaceSetParamSet : String → Context → ParamSet → σ → σ
  /-- The method `Subspace.GetParamSet`, which fills the given parameter set. -/
  SubspaceGetParamSet : String → Context → ParamSet → σ → ParamSet
  /-- The method `TestEnv.GetValidatorAddresses`. -/
  GetValidatorAddresses : Context → σ → List String

/-! ## Helpers of `main.go` -/

section Bridge

variable {σ : Type}

/-- The function `loadEnv`: one atomic `Load` on the `sync.Map`. The type assertion
on the loaded item comes before the test of `ok`, so an absent identifier panics in
the assertion. -/
def loadEnv (envId : Nat) : Prog σ TestEnv :=
  Prog.atom [Event.load envId] id fun w =>
    let item := w.envRegister envId
    let ok := item.isSome
    match item with
    | none => Prog.goPanic "interface conversion: interface \x7b\x7d is nil, not testenv.TestEnv"
    | some env =>
      if !ok then Prog.goPanic ("env not found: " ++ toString envId)
      else pure env

/-- The call `envRegister.Store(envId, env)`: one atomic `Store` on the `sync.Map`. -/
def store (envId : Nat) (env : TestEnv) : Prog σ Unit :=
  Prog.atom [Event.store envId env]
    (fun w => { w with envRegister := Function.update w.envRegister envId (some env) })
    (fun _ => pure ())

/-- A method call on the application object at `addr` that may write to it. The call
is not one indivisible step: it starts by reading the object and ends by writing
back what it computed from the object it read, so that whatever another call in
flight wrote to the object in between is lost. -/
def appCall {α : Type} (addr : Nat) (method : String) (f : σ → α × σ) : Prog σ α :=
  Prog.atom [Event.app addr method] id fun w =>
    Prog.atom []
      (fun w1 => { w1 with apps := Function.update w1.apps addr (f (w.apps addr)).2 })
      (fun _ => pure (f (w.apps addr)).1)

/-- A method call on the application object at `addr` that only reads it. -/
def appRead {α : Type} (addr : Nat) (f : σ → α) : Prog σ α :=
  Prog.atom [] id (fun w => pure (f (w.apps addr)))

/-- The function `encodeErrToResultBytes`. -/
def encodeErrToResultBytes (code : ErrKind) (err : String) : ResultBuf :=
  EncodeResultFromError code err

/-- The function `encodeBytesResultBytes`. -/
def encodeBytesResultBytes (bytes : Bytes) : ResultBuf :=
  EncodeResultFromOk bytes

/-- The method `time.Time.UnixNano`: the nanoseconds since the epoch as an `int64`. -/
def UnixNano (t : Int) : Int := (t + 2 ^ 63) % 2 ^ 64 - 2 ^ 63

/-- Modelled from the spec: the method `TestEnv.BeginNewBlock` is not part of the
sources. §4.2: height = previous height + 1, time = previous time + the time delta
in seconds; the application's begin-block hook runs for the new header, and the
context is replaced. -/
def BeginNewBlock (X : Ext σ) (env : TestEnv) (_executeNextEpoch : Bool)
    (timeIncreaseSeconds : Nat) : Prog σ TestEnv := do
  let newCtx : Context :=
    { env.Ctx with
      BlockHeight := env.Ctx.BlockHeight + 1
      BlockTime := env.Ctx.BlockTime + (timeIncreaseSeconds : Int) * 1000000000 }
  appCall env.App "BeginBlock" (fun s => ((), X.AppBeginBlock newCtx s))
  pure { env with Ctx := newCtx }

/-- Modelled from the spec: the method `ParamTypeRegistry.UnpackAny` is not part of
the sources. §4.4: unpacking fails when the type is unregistered or when the
payload does not unpack into the registered prototype. -/
def UnpackAny (X : Ext σ) (pReg : ParamTypeRegistry) (any : AnyMsg) : Except String ParamSet :=
  match pReg.lookup any.TypeUrl with
  | none => Except.error ("No param set found for " ++ any.TypeUrl)
  | some proto => X.unmarshalParamSet proto any.Value

/-- Modelled from the spec: the method `ParamTypeRegistry.GetEmptyParamsSet` is not
part of the sources. §4.4: it looks up an empty prototype for the type identifier. -/
def GetEmptyParamsSet (pReg : ParamTypeRegistry) (typeUrl : String) : Option ParamSet :=
  pReg.lookup typeUrl

/-- Modelled from the spec: the method `TestEnv.GetValidatorPrivateKey` is not part
of the sources. §6: the private key of the validator of the environment, which is
the `Validator` field assigned by `InitTestEnv`. -/
def TestEnv.GetValidatorPrivateKey (env : TestEnv) : Bytes := env.Validator

/-! ## The exported functions -/

/-- The function `InitTestEnv`; `now` is the reading of `time.Now().UTC()`. The
assignment to `wasmtypes.MaxWasmSize` touches no state of this file and is left
out; the fresh application object is put at the next free address; the statement
`envCounter += 1` is a read of the counter followed by a write. -/
def InitTestEnv (X : Ext σ) (now : Int) : Prog σ Nat :=
  Prog.withLock do
    let w ← Prog.get
    let addr := w.nextApp
    Prog.modify (fun w =>
      { w with apps := Function.update w.apps addr X.SetupInjectiveApp.1, nextApp := addr + 1 })
    let env0 : TestEnv :=
      { App := addr
        Validator := X.SetupInjectiveApp.2
        ParamTypesRegistry := X.SetupParamTypes
        Ctx := { BlockHeight := 0, ChainID := "injective-777", BlockTime := now } }
    appCall addr "SetValidatorSigningInfo" (fun s => ((), X.SetValidatorSigningInfo env0.Ctx s))
    let env ← BeginNewBlock X env0 false 5
    appCall addr "EndBlock" (fun s => ((), X.AppEndBlock env.Ctx.BlockHeight s))
    appCall addr "Commit" (fun s => ((), X.AppCommit s))
    let counter := (← Prog.get).envCounter
    Prog.modify (fun w => { w with envCounter := (counter + 1) % 2 ^ 64 })
    let id := (← Prog.get).envCounter
    store id env
    pure id

/-- The function `InitAccount`; `priv` is the key drawn by `secp256k1.GenPrivKey()`. -/
def InitAccount (X : Ext σ) (envId : Nat) (coinsJson : String) (priv : Bytes) : Prog σ String := do
  let env ← loadEnv envId
  match X.jsonUnmarshalCoins coinsJson with
  | Except.error err => Prog.goPanic err
  | Except.ok coins =>
    let accAddr := X.accAddressOfPrivKey priv
    let err ← appCall env.App "FundAccount" (X.FundAccount env.Ctx accAddr coins)
    match err with
    | some e => Prog.goPanic ("Failed to fund account: " ++ e)
    | none =>
      let base64Priv := X.base64Encode priv
      store envId env
      pure base64Priv

/-- The function `EndBlock`. -/
def EndBlock (X : Ext σ) (envId : Nat) : Prog σ Unit := do
  let env ← loadEnv envId
  appCall env.App "EndBlock" (fun s => ((), X.AppEndBlock env.Ctx.BlockHeight s))
  appCall env.App "Commit" (fun s => ((), X.AppCommit s))
  store envId env

/-- The function `IncreaseTime`. -/
def IncreaseTime (X : Ext σ) (envId : Nat) (seconds : Nat) : Prog σ Unit := do
  let env ← loadEnv envId
  let env ← BeginNewBlock X env false seconds
  store envId env
  EndBlock X envId

/-- The function `BeginBlock`. -/
def BeginBlock (X : Ext σ) (envId : Nat) : Prog σ Unit := do
  let env ← loadEnv envId
  let env ← BeginNewBlock X env false 5
  store envId env

/-- The function `Execute`. -/
def Execute (X : Ext σ) (envId : Nat) (base64ReqDeliverTx : String) : Prog σ ResultBuf := do
  let env ← loadEnv envId
  Prog.withLock do
    match X.base64Decode base64ReqDeliverTx with
    | Except.error err => Prog.goPanic err
    | Except.ok reqDeliverTxBytes =>
      match X.unmarshalRequestDeliverTx reqDeliverTxBytes with
      | Except.error err => pure (encodeErrToResultBytes ErrKind.ExecuteError err)
      | Except.ok reqDeliverTx =>
        let resDeliverTx ← appCall env.App "DeliverTx" (X.AppDeliverTx reqDeliverTx)
        match X.marshalResponseDeliverTx resDeliverTx with
        | Except.error err => Prog.goPanic err
        | Except.ok bz =>
          store envId env
          pure (encodeBytesResultBytes bz)

/-- The function `Query`. -/
def Query (X : Ext σ) (envId : Nat) (path base64QueryMsgBytes : String) : Prog σ ResultBuf := do
  let env ← loadEnv envId
  match X.base64Decode base64QueryMsgBytes with
  | Except.error err => Prog.goPanic err
  | Except.ok queryMsgBytes =>
    let route ← appRead env.App (fun s => X.Route s path)
    match route with
    | none =>
      pure (encodeErrToResultBytes ErrKind.QueryError ("No route found for `" ++ path ++ "`"))
    | some route =>
      let res ← appCall env.App "Query" (route env.Ctx queryMsgBytes)
      match res with
      | Except.error err => pure (encodeErrToResultBytes ErrKind.QueryError err)
      | Except.ok value => pure (encodeBytesResultBytes value)

/-- The function `GetBlockTime`. -/
def GetBlockTime (envId : Nat) : Prog σ Int := do
  let env ← loadEnv envId
  pure (UnixNano env.Ctx.BlockTime)

/-- The function `GetBlockHeight`. -/
def GetBlockHeight (envId : Nat) : Prog σ Int := do
  let env ← loadEnv envId
  pure env.Ctx.BlockHeight

/-- The function `AccountSequence`. -/
def AccountSequence (X : Ext σ) (envId : Nat) (bech32Address : String) : Prog σ Nat := do
  let env ← loadEnv envId
  match X.accAddressFromBech32 bech32Address with
  | Except.error err => Prog.goPanic err
  | Except.ok addr =>
    let seq ← appRead env.App (X.GetSequence env.Ctx addr)
    match seq with
    | Except.error err => Prog.goPanic err
    | Except.ok seq => pure seq

/-- The function `AccountNumber`; calling `GetAccountNumber` on a nil account panics. -/
def AccountNumber (X : Ext σ) (envId : Nat) (bech32Address : String) : Prog σ Nat := do
  let env ← loadEnv envId
  match X.accAddressFromBech32 bech32Address with
  | Except.error err => Prog.goPanic err
  | Except.ok addr =>
    let acc ← appRead env.App (X.GetAccount env.Ctx addr)
    match acc with
    | none => Prog.goPanic "invalid memory address or nil pointer dereference"
    | some accountNumber => pure accountNumber

/-- The function `Simulate`. -/
def Simulate (X : Ext σ) (envId : Nat) (base64TxBytes : String) : Prog σ ResultBuf := do
  let env ← loadEnv envId
  Prog.withLock do
    match X.base64Decode base64TxBytes with
    | Except.error err => Prog.goPanic err
    | Except.ok txBytes =>
      let res ← appCall env.App "Simulate" (X.AppSimulate txBytes)
      match res with
      | Except.error err => pure (encodeErrToResultBytes ErrKind.ExecuteError err)
      | Except.ok gasInfo =>
        match X.marshalGasInfo gasInfo with
        | Except.error err => Prog.goPanic err
        | Except.ok bz => pure (encodeBytesResultBytes bz)

/-- The function `SetParamSet`. -/
def SetParamSet (X : Ext σ) (envId : Nat) (subspaceName base64ParamSetBytes : String) :
    Prog σ ResultBuf := do
  let env ← loadEnv envId
  Prog.withLock do
    match X.base64Decode base64ParamSetBytes with
    | Except.error err => Prog.goPanic err
    | Except.ok paramSetBytes =>
      let subspace ← appRead env.App (fun s => X.GetSubspace s subspaceName)
      match subspace with
      | none =>
        pure (encodeErrToResultBytes ErrKind.ExecuteError
          ("No subspace found for `" ++ subspaceName ++ "`"))
      | some subspace =>
        let pReg := env.ParamTypesRegistry
        match X.unmarshalAny paramSetBytes with
        | Except.error err => pure (encodeErrToResultBytes ErrKind.ExecuteError err)
        | Except.ok any =>
          match UnpackAny X pReg any with
          | Except.error err => pure (encodeErrToResultBytes ErrKind.ExecuteError err)
          | Except.ok pset =>
            appCall env.App "SetParamSet"
              (fun s => ((), X.SubspaceSetParamSet subspace env.Ctx pset s))
            pure (encodeBytesResultBytes [])

/-- The function `GetParamSet`. -/
def GetParamSet (X : Ext σ) (envId : Nat) (subspaceName typeUrl : String) : Prog σ ResultBuf := do
  let env ← loadEnv envId
  let subspace ← appRead env.App (fun s => X.GetSubspace s subspaceName)
  match subspace with
  | none =>
    pure (encodeErrToResultBytes ErrKind.ExecuteError
      ("No subspace found for `" ++ subspaceName ++ "`"))
  | some subspace =>
    let pReg := env.ParamTypesRegistry
    match GetEmptyParamsSet pReg typeUrl with
    | none =>
      pure (encodeErrToResultBytes ErrKind.ExecuteError
        ("No param set found for `" ++ typeUrl ++ "`"))
    | some pset =>
      let pset ← appRead env.App (X.SubspaceGetParamSet subspace env.Ctx pset)
      match X.marshalParamSet pset with
      | Except.error err => Prog.goPanic err
      | Except.ok bz => pure (encodeBytesResultBytes bz)

/-- The function `GetValidatorAddress`; an index outside the slice panics. -/
def GetValidatorAddress (X : Ext σ) (envId : Nat) (n : Int) : Prog σ String := do
  let env ← loadEnv envId
  let addrs ← appRead env.App (X.GetValidatorAddresses env.Ctx)
  if n < 0 then Prog.goPanic "index out of range"
  else
    match addrs.get? n.toNat with
    | none => Prog.goPanic "index out of range"
    | some a => pure a

/-- The function `GetValidatorPrivateKey`. -/
def GetValidatorPrivateKey (X : Ext σ) (envId : Nat) : Prog σ String := do
  let env ← loadEnv envId
  let priv := TestEnv.GetValidatorPrivateKey env
  let base64Priv := X.base64Encode priv
  pure base64Priv

end Bridge

/-! ## Sequences of calls -/

section Calls

variable {σ : Type}

/-- A call of an exported function with its arguments (and, for the two functions
that read the clock or draw a key, what they read). -/
inductive Call where
  | InitTestEnv (now : Int)
  | InitAccount (envId : Nat) (coinsJson : String) (priv : Bytes)
  | IncreaseTime (envId : Nat) (seconds : Nat)
  | BeginBlock (envId : Nat)
  | EndBlock (envId : Nat)
  | Execute (envId : Nat) (base64ReqDeliverTx : String)
  | Query (envId : Nat) (path : String) (base64QueryMsgBytes : String)
  | GetBlockTime (envId : Nat)
  | GetBlockHeight (envId : Nat)
  | AccountSequence (envId : Nat) (bech32Address : String)
  | AccountNumber (envId : Nat) (bech32Address : String)
  | Simulate (envId : Nat) (base64TxBytes : String)
  | SetParamSet (envId : Nat) (subspaceName : String) (base64ParamSetBytes : String)
  | GetParamSet (envId : Nat) (subspaceName : String) (typeUrl : String)
  | GetValidatorAddress (envId : Nat) (n : Int)
  | GetValidatorPrivateKey (envId : Nat)
  deriving DecidableEq, Repr

/-- What an exported function hands back across the boundary. -/
inductive Value where
  | unit
  | uint64 (n : Nat)
  | int64 (n : Int)
  | cstring (s : String)
  | result (r : ResultBuf)
  deriving DecidableEq, Repr

/-- The identifier argument of a call; `InitTestEnv` has none. -/
def Call.envId : Call → Option Nat
  | Call.InitTestEnv _ => none
  | Call.InitAccount envId _ _ => some envId
  | Call.IncreaseTime envId _ => some envId
  | Call.BeginBlock envId => some envId
  | Call.EndBlock envId => some envId
  | Call.Execute envId _ => some envId
  | Call.Query envId _ _ => some envId
  | Call.GetBlockTime envId => some envId
  | Call.GetBlockHeight envId => some envId
  | Call.AccountSequence envId _ => some envId
  | Call.AccountNumber envId _ => some envId
  | Call.Simulate envId _ => some envId
  | Call.SetParamSet envId _ _ => some envId
  | Call.GetParamSet envId _ _ => some envId
  | Call.GetValidatorAddress envId _ => some envId
  | Call.GetValidatorPrivateKey envId => some envId

/-- Running one call. -/
def exec (X : Ext σ) : Call → Prog σ Value
  | Call.InitTestEnv now => do
    let id ← InitTestEnv X now
    pure (Value.uint64 id)
  | Call.InitAccount envId coinsJson priv => do
    let s ← InitAccount X envId coinsJson priv
    pure (Value.cstring s)
  | Call.IncreaseTime envId seconds => do
    IncreaseTime X envId seconds
    pure Value.unit
  | Call.BeginBlock envId => do
    BeginBlock X envId
    pure Value.unit
  | Call.EndBlock envId => do
    EndBlock X envId
    pure Value.unit
  | Call.Execute envId base64ReqDeliverTx => do
    let r ← Execute X envId base64ReqDeliverTx
    pure (Value.result r)
  | Call.Query envId path base64QueryMsgBytes => do
    let r ← Query X envId path base64QueryMsgBytes
    pure (Value.result r)
  | Call.GetBlockTime envId => do
    let t ← GetBlockTime envId
    pure (Value.int64 t)
  | Call.GetBlockHeight envId => do
    let h ← GetBlockHeight envId
    pure (Value.int64 h)
  | Call.AccountSequence envId bech32Address => do
    let n ← AccountSequence X envId bech32Address
    pure (Value.uint64 n)
  | Call.AccountNumber envId bech32Address => do
    let n ← AccountNumber X envId bech32Address
    pure (Value.uint64 n)
  | Call.Simulate envId base64TxBytes => do
    let r ← Simulate X envId base64TxBytes
    pure (Value.result r)
  | Call.SetParamSet envId subspaceName base64ParamSetBytes => do
    let r ← SetParamSet X envId subspaceName base64ParamSetBytes
    pure (Value.result r)
  | Call.GetParamSet envId subspaceName typeUrl => do
    let r ← GetParamSet X envId subspaceName typeUrl
    pure (Value.result r)
  | Call.GetValidatorAddress envId n => do
    let s ← GetValidatorAddress X envId n
    pure (Value.cstring s)
  | Call.GetValidatorPrivateKey envId => do
    let s ← GetValidatorPrivateKey X envId
    pure (Value.cstring s)

/-- The world when the library is loaded: `envCounter` is 0 and `envRegister` is
empty. -/
def initWorld (X : Ext σ) : World σ :=
  { envCounter := 0
    envRegister := fun _ => none
    apps := fun _ => X.SetupInjectiveApp.1
    nextApp := 0 }

/-- Running calls one after the other: the outcome of each and the last world. -/
def runCalls (X : Ext σ) : List Call → World σ → List (Call × Outcome Value) × World σ
  | [], w => ([], w)
  | c :: cs, w =>
    let r := (exec X c).run w
    let rest := runCalls X cs r.world
    ((c, r.out) :: rest.1, rest.2)

/-- The identifiers that the `InitTestEnv` calls of a run returned, in order. -/
def createdIds : List (Call × Outcome Value) → List Nat
  | [] => []
  | (Call.InitTestEnv _, Outcome.ret (Value.uint64 id)) :: rest => id :: createdIds rest
  | _ :: rest => createdIds rest

/-- The number of `InitTestEnv` calls in a list of calls. -/
def creations : List Call → Nat
  | [] => 0
  | Call.InitTestEnv _ :: cs => creations cs + 1
  | _ :: cs => creations cs

/-- An operation that leaves `envCounter` as it found it. -/
structure KeepsCounter {α : Type} (x : Prog σ α) : Prop where
  keep : ∀ w, (x.run w).world.envCounter = w.envCounter

/-- Containment of one text in another. -/
def Contains (msg part : String) : Prop := ∃ pre post : String, msg = pre ++ part ++ post

end Calls

/-! ## Two calls in flight -/

section Concurrency

variable {σ : Type}

/-- Two calls in flight on one world; `holder` is the call that holds `mu`, if any
(`false` for the first call, `true` for the second). -/
structure Config (σ α : Type) where
  world : World σ
  holder : Option Bool
  first : Prog σ α
  second : Prog σ α

/-- One step of the call `me`: an ended call has no step, `mu.Lock()` has one only
while nobody holds the mutex. -/
def stepThread {α : Type} (me : Bool) (w : World σ) (holder : Option Bool) :
    Prog σ α → Option (World σ × Option Bool × Prog σ α)
  | Prog.done _ => none
  | Prog.atom _ u k => some (u w, holder, k w)
  | Prog.acquire k => if holder = none then some (w, some me, k) else none
  | Prog.release k => some (w, none, k)

/-- One step of the picked call. -/
def Config.step {α : Type} (c : Config σ α) (pick : Bool) : Option (Config σ α) :=
  if pick then
    match stepThread true c.world c.holder c.second with
    | none => none
    | some (w, h, t) => some { c with world := w, holder := h, second := t }
  else
    match stepThread false c.world c.holder c.first with
    | none => none
    | some (w, h, t) => some { c with world := w, holder := h, first := t }

/-- Running a schedule: which call takes each next step. -/
def runSchedule {α : Type} : List Bool → Config σ α → Option (Config σ α)
  | [], c => some c
  | b :: bs, c =>
    match c.step b with
    | none => none
    | some c1 => runSchedule bs c1

/-- Every schedule from `c` that runs both calls to their end ends with outcomes
and a world satisfying `P`. -/
structure Settles {α : Type} (P : Outcome α → Outcome α → World σ → Prop) (c : Config σ α) :
    Prop where
  final : ∀ sched c1 o1 o2, runSchedule sched c = some c1 → c1.first = Prog.done o1 →
    c1.second = Prog.done o2 → P o1 o2 c1.world

/-- The same two calls with their places exchanged. -/
def Config.swap {α : Type} (c : Config σ α) : Config σ α :=
  ⟨c.world, c.holder.map not, c.second, c.first⟩

/-- The program never takes nor frees the mutex. -/
def Prog.NoLock {α : Type} : Prog σ α → Prop
  | Prog.done _ => True
  | Prog.atom _ _ k => ∀ w, (k w).NoLock
  | Prog.acquire _ => False
  | Prog.release _ => False

/-- The predicate `J` holds of every world the program passes through when it runs
on its own from `w`, the last one included. -/
def Prog.Along {α : Type} (J : World σ → Prop) : Prog σ α → World σ → Prop
  | Prog.done _, w => J w
  | Prog.atom _ u k, w => J w ∧ (k w).Along J (u w)
  | Prog.acquire k, w => k.Along J w
  | Prog.release k, w => k.Along J w

/-- The outcomes of two calls in flight once both have ended. -/
def Config.ended {α : Type} (c : Config σ α) : Option (Outcome α × Outcome α) :=
  match c.first, c.second with
  | Prog.done o1, Prog.done o2 => some (o1, o2)
  | _, _ => none

end Concurrency

/-! ## A concrete set of collaborators

A small application and small codecs on which the bridge can be evaluated at
explicit inputs. -/

namespace Sample

/-- The state of the sample application. -/
structure AppState where
  delivered : List Bytes
  commits : Nat
  params : List (String × ParamSet)
  balances : List (Bytes × Coins)
  deriving DecidableEq, Repr

/-- The value of a character of the standard base64 alphabet. -/
def sextet (c : Char) : Option Nat :=
  let n := c.toNat
  if 65 ≤ n ∧ n ≤ 90 then some (n - 65)
  else if 97 ≤ n ∧ n ≤ 122 then some (n - 71)
  else if 48 ≤ n ∧ n ≤ 57 then some (n + 4)
  else if n = 43 then some 62
  else if n = 47 then some 63
  else none

/-- Decoding of padded standard base64, four characters at a time. -/
def decodeQuads : List Char → Except String Bytes
  | [] => Except.ok []
  | a :: b :: c :: d :: rest =>
    match sextet a, sextet b with
    | some x, some y =>
      if c = '=' ∧ d = '=' ∧ rest = [] then Except.ok [(x * 64 + y) / 16]
      else
        match sextet c with
        | some z =>
          let n := (x * 64 + y) * 64 + z
          if d = '=' ∧ rest = [] then Except.ok [n / 1024, n / 4 % 256]
          else
            match sextet d, decodeQuads rest with
            | some u, Except.ok tl =>
              let m := n * 64 + u
              Except.ok (m / 65536 :: m / 256 % 256 :: m % 256 :: tl)
            | _, _ => Except.error "illegal base64 data"
        | none => Except.error "illegal base64 data"
    | _, _ => Except.error "illegal base64 data"
  | _ => Except.error "illegal base64 data"

def base64Decode (s : String) : Except String Bytes := decodeQuads s.data

/-- The wire form of a delivery request: nothing, or field 1 with its length. -/
def unmarshalRequestDeliverTx : Bytes → Except String RequestDeliverTx
  | [] => Except.ok { Tx := [] }
  | 10 :: n :: tx =>
    if tx.length = n then Except.ok { Tx := tx } else Except.error "unexpected EOF"
  | _ => Except.error "proto: illegal wireType"

def marshalResponseDeliverTx (r : ResponseDeliverTx) : Except String Bytes :=
  Except.ok (8 :: r.Code :: 18 :: r.Data.length :: r.Data)

def marshalGasInfo (g : GasInfo) : Except String Bytes :=
  Except.ok [8, g.GasWanted, 16, g.GasUsed]

def bankParams : ParamSet :=
  { TypeUrl := "/cosmos.bank.v1beta1.Params", Fields := [] }

/-- The wire form of an `Any`: a first byte naming the type, then the value. -/
def unmarshalAny : Bytes → Except String AnyMsg
  | [] => Except.error "unexpected EOF"
  | 1 :: value => Except.ok { TypeUrl := "/cosmos.bank.v1beta1.Params", Value := value }
  | _ :: value => Except.ok { TypeUrl := "/unknown.Params", Value := value }

def unmarshalParamSet (proto : ParamSet) (value : Bytes) : Except String ParamSet :=
  match value with
  | [] => Except.error "unexpected EOF"
  | _ => Except.ok { proto with Fields := [("DefaultSendEnabled", value)] }

def deliverTx (req : RequestDeliverTx) (st : AppState) : ResponseDeliverTx × AppState :=
  match req.Tx with
  | [] => ({ Code := 2, Data := [], Log := "tx parse error" }, st)
  | tx => ({ Code := 0, Data := tx, Log := "" }, { st with delivered := tx :: st.delivered })

def simulate (txBytes : Bytes) (st : AppState) : Except String GasInfo × AppState :=
  match txBytes with
  | [] => (Except.error "tx parse error", st)
  | tx => (Except.ok { GasWanted := 0, GasUsed := tx.length }, st)

def route (_st : AppState) (path : String) :
    Option (Context → Bytes → AppState → Except String Bytes × AppState) :=
  if path = "/cosmos.bank.v1beta1.Query/Params" then
    some (fun _ _ st => (Except.ok [st.commits], st))
  else none

def getSubspace (_st : AppState) (name : String) : Option String :=
  if name = "bank" then some "bank" else none

def setParamSet (subspace : String) (_ctx : Context) (pset : ParamSet) (st : AppState) :
    AppState :=
  { st with params := (subspace, pset) :: st.params }

def getParamSet (subspace : String) (_ctx : Context) (pset : ParamSet) (st : AppState) :
    ParamSet :=
  match st.params.lookup subspace with
  | some p => p
  | none => pset

def fundAccount (_ctx : Context) (addr : Bytes) (coins : Coins) (st : AppState) :
    Option String × AppState :=
  (none, { st with balances := (addr, coins) :: st.balances })

/-- The sample collaborators. -/
def ext : Ext AppState where
  base64Decode := base64Decode
  base64Encode := fun bz => String.mk (bz.map Char.ofNat)
  jsonUnmarshalCoins := fun s =>
    if s = "[]" then Except.ok [] else Except.error "invalid character"
  unmarshalRequestDeliverTx := unmarshalRequestDeliverTx
  marshalResponseDeliverTx := marshalResponseDeliverTx
  marshalGasInfo := marshalGasInfo
  unmarshalAny := unmarshalAny
  marshalParamSet := fun p => Except.ok (p.Fields.map (fun f => f.2.length))
  unmarshalParamSet := unmarshalParamSet
  accAddressFromBech32 := fun s =>
    if s = "" then Except.error "empty address string is not allowed" else Except.ok [s.length]
  accAddressOfPrivKey := fun priv => priv.take 20
  SetupInjectiveApp := ({ delivered := [], commits := 0, params := [], balances := [] }, [7])
  SetupParamTypes := [("/cosmos.bank.v1beta1.Params", bankParams)]
  SetValidatorSigningInfo := fun _ st => st
  AppBeginBlock := fun _ st => st
  AppEndBlock := fun _ st => st
  AppCommit := fun st => { st with commits := st.commits + 1 }
  AppDeliverTx := deliverTx
  AppSimulate := simulate
  Route := route
  FundAccount := fundAccount
  GetSequence := fun _ _ st => Except.ok st.delivered.length
  GetAccount := fun _ addr st => if st.balances.lookup addr = none then none else some 0
  GetSubspace := getSubspace
  SubspaceSetParamSet := setParamSet
  SubspaceGetParamSet := getParamSet
  GetValidatorAddresses := fun _ _ => ["injvaloper1"]

/-- The world after one `InitTestEnv` at clock reading 1700000000 s. -/
def world1 : World AppState :=
  ((InitTestEnv ext 1700000000000000000).run (initWorld ext)).world

/-- The environment registered under identifier 1 in `world1`. -/
def env1 : TestEnv :=
  { App := 0
    Ctx := { BlockHeight := 1, BlockTime := 1700000005000000000, ChainID := "injective-777" }
    ParamTypesRegistry := ext.SetupParamTypes
    Validator := [7] }

end Sample

/-! ## Reading a call -/

section Lemmas

variable {σ α β : Type}

@[simp] theorem Prog.bind_def (x : Prog σ α) (f : α → Prog σ β) :
    (x >>= f) = Prog.bind x f := rfl

/-- Running a sequence on its own is running its parts one after the other. -/
theorem Prog.run_bind (x : Prog σ α) (f : α → Prog σ β) :
    ∀ w, (x.bind f).run w =
      match (x.run w).out with
      | Outcome.ret a =>
        ⟨((f a).run (x.run w).world).out, ((f a).run (x.run w).world).world,
          (x.run w).trace ++ ((f a).run (x.run w).world).trace⟩
      | Outcome.abort m => ⟨Outcome.abort m, (x.run w).world, (x.run w).trace⟩ := by
  induction x with
  | done o =>
    intro w
    cases o <;> simp [Prog.bind, Prog.run]
  | atom e u k ih =>
    intro w
    simp only [Prog.bind, Prog.run, ih]
    cases h : ((k w).run (u w)).out <;> simp
  | acquire k ih =>
    intro w
    simp only [Prog.bind, Prog.run, ih]
    cases h : (k.run w).out <;> simp
  | release k ih =>
    intro w
    simp only [Prog.bind, Prog.run, ih]
    cases h : (k.run w).out <;> simp

/-- Running a body with its deferred unlock: the unlock is the last event. -/
theorem Prog.run_deferUnlock (x : Prog σ α) :
    ∀ w, x.deferUnlock.run w = ⟨(x.run w).out, (x.run w).world, (x.run w).trace ++ [Event.unlock]⟩ := by
  induction x with
  | done o => intro w; simp [Prog.deferUnlock, Prog.run]
  | atom e u k ih => intro w; simp [Prog.deferUnlock, Prog.run, ih]
  | acquire k ih => intro w; simp [Prog.deferUnlock, Prog.run, ih]
  | release k ih => intro w; simp [Prog.deferUnlock, Prog.run, ih]

/-- C1: for a registered environment and a request string that decodes (base64,
then wire bytes) to a delivery request, `Execute` returns the success result whose
payload is the serialized response of `DeliverTx` for that request, whatever the
response (a failed transaction included), and never an error-tagged result; the
serialized response is what `proto.Marshal` yields, and the one case without it
(`Marshal` fails) is a panic, not a result. -/
theorem Execute_passes_the_response_through (X : Ext σ) (w : World σ) (envId : Nat)
    (s : String) (env : TestEnv) (bs : Bytes) (req : RequestDeliverTx)
    (hreg : w.envRegister envId = some env)
    (hb64 : X.base64Decode s = Except.ok bs)
    (hreq : X.unmarshalRequestDeliverTx bs = Except.ok req) :
    (∀ bz, X.marshalResponseDeliverTx (X.AppDeliverTx req (w.apps env.App)).1 = Except.ok bz →
      ((Execute X envId s).run w).out = Outcome.ret (EncodeResultFromOk bz)) ∧
    (∀ kind msg,
      ((Execute X envId s).run w).out ≠ Outcome.ret (EncodeResultFromError kind msg)) ∧
    (∀ e, X.marshalResponseDeliverTx (X.AppDeliverTx req (w.apps env.App)).1 = Except.error e →
      ((Execute X envId s).run w).out = Outcome.abort e) := by
  refine ⟨?_, ?_, ?_⟩
  · intro bz hbz
    simp [Execute, loadEnv, Prog.bind, Prog.run, Prog.withLock, Prog.deferUnlock, hreg, hb64,
      hreq, appCall, hbz, store, encodeBytesResultBytes]
  · intro kind msg
    cases hbz : X.marshalResponseDeliverTx (X.AppDeliverTx req (w.apps env.App)).1 <;>
    simp [Execute, loadEnv, Prog.bind, Prog.run, Prog.withLock, Prog.deferUnlock, hreg, hb64,
      hreq, appCall, hbz, store, encodeBytesResultBytes, EncodeResultFromOk,
      EncodeResultFromError, Prog.goPanic]
  · intro e hbz
    simp [Execute, loadEnv, Prog.bind, Prog.run, Prog.withLock, Prog.deferUnlock, hreg, hb64,
      hreq, appCall, hbz, Prog.goPanic]

/-- C1, at an input: in the sample world a request carrying the empty transaction is
answered by the failure response (code 2), and `Execute` returns it on the
success path. -/
theorem Execute_passes_the_response_through_witness :
    (Sample.ext.AppDeliverTx { Tx := [] } (Sample.world1.apps 0)).1.Code = 2 ∧
    ((Execute Sample.ext 1 "").run Sample.world1).out
      = Outcome.ret (EncodeResultFromOk [8, 2, 18, 0]) :=
  ⟨rfl, (Execute_passes_the_response_through Sample.ext Sample.world1 1 ""
    Sample.env1 [] { Tx := [] } rfl rfl rfl).1 [8, 2, 18, 0] rfl⟩

/-- C2, as stated, fails: a request string that is not base64 fails to decode, and
`Execute` panics instead of returning an Execute-error result. -/
theorem Execute_bad_base64_aborts :
    Sample.ext.base64Decode "eA=" = Except.error "illegal base64 data" ∧
    ((Execute Sample.ext 1 "eA=").run Sample.world1).out = Outcome.abort "illegal base64 data" ∧
    ¬ ∃ msg, ((Execute Sample.ext 1 "eA=").run Sample.world1).out
        = Outcome.ret (EncodeResultFromError ErrKind.ExecuteError msg) := by
  refine ⟨rfl, rfl, ?_⟩
  rintro ⟨msg, h⟩
  have h2 : ((Execute Sample.ext 1 "eA=").run Sample.world1).out
      = Outcome.abort "illegal base64 data" := rfl
  rw [h2] at h
  cases h

/-- C2, amended: for a registered environment, `Execute` returns an Execute-error
result exactly when the base64 text decodes and the wire bytes do not unmarshal (the
message is the unmarshalling error); it returns a success result exactly when the
request decodes and the response marshals; it panics exactly when the base64 text
does not decode or the response does not marshal. -/
theorem Execute_error_iff_unmarshal_fails (X : Ext σ) (w : World σ) (envId : Nat)
    (s : String) (env : TestEnv) (hreg : w.envRegister envId = some env) :
    (∀ msg, ((Execute X envId s).run w).out
        = Outcome.ret (EncodeResultFromError ErrKind.ExecuteError msg) ↔
      ∃ bs, X.base64Decode s = Except.ok bs ∧
        X.unmarshalRequestDeliverTx bs = Except.error msg) ∧
    (∀ bz, ((Execute X envId s).run w).out = Outcome.ret (EncodeResultFromOk bz) ↔
      ∃ bs req, X.base64Decode s = Except.ok bs ∧
        X.unmarshalRequestDeliverTx bs = Except.ok req ∧
        X.marshalResponseDeliverTx (X.AppDeliverTx req (w.apps env.App)).1 = Except.ok bz) ∧
    (∀ m, ((Execute X envId s).run w).out = Outcome.abort m ↔
      (X.base64Decode s = Except.error m ∨
        ∃ bs req, X.base64Decode s = Except.ok bs ∧
          X.unmarshalRequestDeliverTx bs = Except.ok req ∧
          X.marshalResponseDeliverTx (X.AppDeliverTx req (w.apps env.App)).1
            = Except.error m)) ∧
    (∀ msg, ((Execute X envId s).run w).out ≠ Outcome.ret (EncodeResultFromError ErrKind.QueryError msg)) := by
  cases hb64 : X.base64Decode s with
  | error e =>
    simp [Execute, loadEnv, Prog.bind, Prog.run, Prog.get, Prog.withLock, Prog.deferUnlock, hreg, hb64, Prog.goPanic,
      EncodeResultFromOk, EncodeResultFromError]
  | ok bs =>
    cases hreq : X.unmarshalRequestDeliverTx bs with
    | error e =>
      simp [Execute, loadEnv, Prog.bind, Prog.run, Prog.get, Prog.withLock, Prog.deferUnlock, hreg, hb64, hreq,
        Prog.goPanic, EncodeResultFromOk, EncodeResultFromError, encodeErrToResultBytes]
    | ok req =>
      cases hbz : X.marshalResponseDeliverTx (X.AppDeliverTx req (w.apps env.App)).1 <;>
      simp [Execute, loadEnv, Prog.bind, Prog.run, Prog.get, Prog.withLock, Prog.deferUnlock, hreg, hb64, hreq, hbz,
        Prog.goPanic, EncodeResultFromOk, EncodeResultFromError, encodeErrToResultBytes,
        encodeBytesResultBytes, appCall, store, Prog.modify]

/-- C2, amended, at an input: "eA==" is base64 of one byte that is no delivery
request, and `Execute` returns the Execute-error result with the codec's message. -/
theorem Execute_error_iff_unmarshal_fails_witness :
    Sample.world1.envRegister 1 ≠ none ∧
    ((Execute Sample.ext 1 "eA==").run Sample.world1).out
      = Outcome.ret (EncodeResultFromError ErrKind.ExecuteError "proto: illegal wireType") :=
  ⟨by simp [Sample.world1, InitTestEnv, Prog.withLock, Prog.deferUnlock, Prog.bind, Prog.run, Prog.get, Prog.modify, appCall,
      BeginNewBlock, store, initWorld],
   ((Execute_error_iff_unmarshal_fails Sample.ext Sample.world1 1 "eA=="
    Sample.env1 rfl).1 "proto: illegal wireType").2 ⟨[120], rfl, rfl⟩⟩

/-- C3, as stated, fails: with a path the router does not resolve and a query string
that is not base64, `Query` panics. -/
theorem Query_bad_base64_aborts :
    Sample.ext.Route (Sample.world1.apps 0) "/no.such.Query/Route" = none ∧
    ((Query Sample.ext 1 "/no.such.Query/Route" "eA=").run Sample.world1).out
      = Outcome.abort "illegal base64 data" :=
  ⟨rfl, rfl⟩

/-- C3, amended: for a registered environment, `Query` with a query string that is
valid base64 and a path the query router does not resolve returns (no panic) the
Query-error result whose message contains the literal path, and changes nothing;
with a query string that is not valid base64 it aborts with the decoding error and
changes nothing, whatever the path and whatever the router (it is not consulted). -/
theorem Query_unrouted_path_is_a_query_error (X : Ext σ) (w : World σ) (envId : Nat)
    (env : TestEnv) (hreg : w.envRegister envId = some env) :
    (∀ path q bs, X.base64Decode q = Except.ok bs → X.Route (w.apps env.App) path = none →
      ((Query X envId path q).run w).out
        = Outcome.ret (EncodeResultFromError ErrKind.QueryError
            ("No route found for `" ++ path ++ "`")) ∧
      Contains ("No route found for `" ++ path ++ "`") path ∧
      ((Query X envId path q).run w).world = w) ∧
    (∀ q err, X.base64Decode q = Except.error err → ∀ router path,
      ((Query { X with Route := router } envId path q).run w).out = Outcome.abort err ∧
      ((Query { X with Route := router } envId path q).run w).world = w ∧
      ((Query { X with Route := router } envId path q).run w).trace = [Event.load envId]) := by
  constructor
  · intro path q bs hb64 hroute
    refine ⟨?_, ⟨"No route found for `", "`", rfl⟩, ?_⟩ <;>
    simp [Query, loadEnv, Prog.bind, Prog.run, Prog.get, hreg, hb64, hroute, appRead,
      encodeErrToResultBytes]
  · intro q err hb64 router path
    refine ⟨?_, ?_, ?_⟩ <;>
    simp [Query, loadEnv, Prog.bind, Prog.run, Prog.goPanic, hreg, hb64]

/-- C3, amended, at an input: an unknown path with the query string "eA==" is a
Query error; the query string "eA=" aborts the call, here with a path the router
resolves. -/
theorem Query_unrouted_path_is_a_query_error_witness :
    ((Query Sample.ext 1 "/no.such.Query/Route" "eA==").run Sample.world1).out
      = Outcome.ret (EncodeResultFromError ErrKind.QueryError
          "No route found for `/no.such.Query/Route`") ∧
    ((Query Sample.ext 1 "/cosmos.bank.v1beta1.Query/Params" "eA=").run Sample.world1).out
      = Outcome.abort "illegal base64 data" :=
  ⟨((Query_unrouted_path_is_a_query_error Sample.ext Sample.world1 1 Sample.env1 rfl).1
      "/no.such.Query/Route" "eA==" [120] rfl rfl).1,
    ((Query_unrouted_path_is_a_query_error Sample.ext Sample.world1 1 Sample.env1 rfl).2
      "eA=" "illegal base64 data" rfl Sample.route "/cosmos.bank.v1beta1.Query/Params").1⟩

/-- C4: for a registered environment and a valid-base64 transaction string,
`Simulate` returns an error-tagged result carrying the simulation's error text
exactly when `App.Simulate` fails, and otherwise the success result whose payload is
the serialized gas info; a failing simulation never comes back on the success path;
in every case the registry (hence the Environment stored under the identifier) and
the counter are as before, nothing is stored, and if the application's `Simulate`
leaves the application as it was the whole world is unchanged. -/
theorem Simulate_error_iff_simulation_fails (X : Ext σ) (w : World σ) (envId : Nat)
    (s : String) (env : TestEnv) (txBytes : Bytes)
    (hreg : w.envRegister envId = some env)
    (hb64 : X.base64Decode s = Except.ok txBytes) :
    (∀ kind msg, ((Simulate X envId s).run w).out = Outcome.ret (EncodeResultFromError kind msg) ↔
      (kind = ErrKind.ExecuteError ∧
        (X.AppSimulate txBytes (w.apps env.App)).1 = Except.error msg)) ∧
    (∀ gasInfo bz, (X.AppSimulate txBytes (w.apps env.App)).1 = Except.ok gasInfo →
      X.marshalGasInfo gasInfo = Except.ok bz →
      ((Simulate X envId s).run w).out = Outcome.ret (EncodeResultFromOk bz)) ∧
    (∀ bz, ((Simulate X envId s).run w).out = Outcome.ret (EncodeResultFromOk bz) →
      ∃ gasInfo, (X.AppSimulate txBytes (w.apps env.App)).1 = Except.ok gasInfo ∧
        X.marshalGasInfo gasInfo = Except.ok bz) ∧
    (∀ gasInfo e, (X.AppSimulate txBytes (w.apps env.App)).1 = Except.ok gasInfo →
      X.marshalGasInfo gasInfo = Except.error e →
      ((Simulate X envId s).run w).out = Outcome.abort e) ∧
    ((Simulate X envId s).run w).world.envRegister = w.envRegister ∧
    ((Simulate X envId s).run w).world.envRegister envId = some env ∧
    ((Simulate X envId s).run w).world.envCounter = w.envCounter ∧
    (∀ id e, Event.store id e ∉ ((Simulate X envId s).run w).trace) ∧
    ((X.AppSimulate txBytes (w.apps env.App)).2 = w.apps env.App →
      ((Simulate X envId s).run w).world = w) := by
  have hworld : ∀ st : σ, st = w.apps env.App →
      ({ envCounter := w.envCounter, envRegister := w.envRegister,
         apps := Function.update w.apps env.App st, nextApp := w.nextApp } : World σ) = w := by
    intro st h
    rw [h, Function.update_eq_self]
  cases hsim : (X.AppSimulate txBytes (w.apps env.App)).1 with
  | error e =>
    refine ⟨?_, ?_, ?_, ?_, ?_, ?_, ?_, ?_, ?_⟩
    · intro kind msg
      simp [Simulate, loadEnv, Prog.bind, Prog.run, Prog.withLock, Prog.deferUnlock, hreg,
        hb64, hsim, appCall, EncodeResultFromError, encodeErrToResultBytes]
      exact fun _ => eq_comm
    · intro g bz hg
      cases hg
    · simp [Simulate, loadEnv, Prog.bind, Prog.run, Prog.withLock, Prog.deferUnlock, hreg,
        hb64, hsim, appCall, EncodeResultFromError, EncodeResultFromOk, encodeErrToResultBytes]
    · intro g e2 hg
      cases hg
    · simp [Simulate, loadEnv, Prog.bind, Prog.run, Prog.withLock, Prog.deferUnlock, hreg,
        hb64, hsim, appCall]
    · simp [Simulate, loadEnv, Prog.bind, Prog.run, Prog.withLock, Prog.deferUnlock, hreg,
        hb64, hsim, appCall]
    · simp [Simulate, loadEnv, Prog.bind, Prog.run, Prog.withLock, Prog.deferUnlock, hreg,
        hb64, hsim, appCall]
    · simp [Simulate, loadEnv, Prog.bind, Prog.run, Prog.withLock, Prog.deferUnlock, hreg,
        hb64, hsim, appCall]
    · simp [Simulate, loadEnv, Prog.bind, Prog.run, Prog.withLock, Prog.deferUnlock, hreg,
        hb64, hsim, appCall]
      exact hworld _
  | ok g =>
    cases hbz : X.marshalGasInfo g with
    | error e =>
      refine ⟨?_, ?_, ?_, ?_, ?_, ?_, ?_, ?_, ?_⟩
      · simp [Simulate, loadEnv, Prog.bind, Prog.run, Prog.withLock, Prog.deferUnlock, hreg,
          hb64, hsim, hbz, appCall, Prog.goPanic]
      · intro g2 bz hg h2
        cases hg
        rw [hbz] at h2
        cases h2
      · simp [Simulate, loadEnv, Prog.bind, Prog.run, Prog.withLock, Prog.deferUnlock, hreg,
          hb64, hsim, hbz, appCall, Prog.goPanic]
      · intro g2 e2 hg h2
        cases hg
        rw [hbz] at h2
        cases h2
        simp [Simulate, loadEnv, Prog.bind, Prog.run, Prog.withLock, Prog.deferUnlock, hreg,
          hb64, hsim, hbz, appCall, Prog.goPanic]
      · simp [Simulate, loadEnv, Prog.bind, Prog.run, Prog.withLock, Prog.deferUnlock, hreg,
          hb64, hsim, hbz, appCall, Prog.goPanic]
      · simp [Simulate, loadEnv, Prog.bind, Prog.run, Prog.withLock, Prog.deferUnlock, hreg,
          hb64, hsim, hbz, appCall, Prog.goPanic]
      · simp [Simulate, loadEnv, Prog.bind, Prog.run, Prog.withLock, Prog.deferUnlock, hreg,
          hb64, hsim, hbz, appCall, Prog.goPanic]
      · simp [Simulate, loadEnv, Prog.bind, Prog.run, Prog.withLock, Prog.deferUnlock, hreg,
          hb64, hsim, hbz, appCall, Prog.goPanic]
      · simp [Simulate, loadEnv, Prog.bind, Prog.run, Prog.withLock, Prog.deferUnlock, hreg,
          hb64, hsim, hbz, appCall, Prog.goPanic]
        exact hworld _
    | ok bz0 =>
      refine ⟨?_, ?_, ?_, ?_, ?_, ?_, ?_, ?_, ?_⟩
      · simp [Simulate, loadEnv, Prog.bind, Prog.run, Prog.withLock, Prog.deferUnlock, hreg,
          hb64, hsim, hbz, appCall, EncodeResultFromError, EncodeResultFromOk,
          encodeBytesResultBytes]
      · intro g2 bz hg h2
        cases hg
        rw [hbz] at h2
        cases h2
        simp [Simulate, loadEnv, Prog.bind, Prog.run, Prog.withLock, Prog.deferUnlock, hreg,
          hb64, hsim, hbz, appCall, encodeBytesResultBytes]
      · intro bz h
        refine ⟨g, rfl, ?_⟩
        simp [Simulate, loadEnv, Prog.bind, Prog.run, Prog.withLock, Prog.deferUnlock, hreg,
          hb64, hsim, hbz, appCall, EncodeResultFromOk, encodeBytesResultBytes] at h
        rw [← h]
        exact hbz
      · intro g2 e2 hg h2
        cases hg
        rw [hbz] at h2
        cases h2
      · simp [Simulate, loadEnv, Prog.bind, Prog.run, Prog.withLock, Prog.deferUnlock, hreg,
          hb64, hsim, hbz, appCall]
      · simp [Simulate, loadEnv, Prog.bind, Prog.run, Prog.withLock, Prog.deferUnlock, hreg,
          hb64, hsim, hbz, appCall]
      · simp [Simulate, loadEnv, Prog.bind, Prog.run, Prog.withLock, Prog.deferUnlock, hreg,
          hb64, hsim, hbz, appCall]
      · simp [Simulate, loadEnv, Prog.bind, Prog.run, Prog.withLock, Prog.deferUnlock, hreg,
          hb64, hsim, hbz, appCall]
      · simp [Simulate, loadEnv, Prog.bind, Prog.run, Prog.withLock, Prog.deferUnlock, hreg,
          hb64, hsim, hbz, appCall]
        exact hworld _

/-- C4, at an input: in the sample world the empty transaction fails to simulate, and
`Simulate` returns the error-tagged result with the simulation's error text. -/
theorem Simulate_error_iff_simulation_fails_witness :
    ((Simulate Sample.ext 1 "").run Sample.world1).out
      = Outcome.ret (EncodeResultFromError ErrKind.ExecuteError "tx parse error") ∧
    ((Simulate Sample.ext 1 "").run Sample.world1).world.envRegister 1 = Sample.world1.envRegister 1 :=
  ⟨((Simulate_error_iff_simulation_fails Sample.ext Sample.world1 1 ""
    Sample.env1 [] rfl rfl).1 ErrKind.ExecuteError "tx parse error").2 ⟨rfl, rfl⟩,
   rfl⟩

/-- C5: for a registered environment, any subspace name and a valid-base64 payload,
`SetParamSet` returns a typed (Execute-error) result and applies nothing (the world
is unchanged and no application method that writes is called) when the subspace name
is not resolved, when the payload does not unmarshal as an `Any`, or when the
registry cannot unpack it (an unregistered type is one such failure); in every other
case it calls `Subspace.SetParamSet` exactly once, on the resolved subspace with the
unpacked parameter set, and returns the success result with the empty payload. -/
theorem SetParamSet_applies_once_or_not_at_all (X : Ext σ) (w : World σ) (envId : Nat)
    (subspaceName p : String) (env : TestEnv) (bs : Bytes)
    (hreg : w.envRegister envId = some env)
    (hb64 : X.base64Decode p = Except.ok bs) :
    ((X.GetSubspace (w.apps env.App) subspaceName = none ∨
        (∃ e, X.unmarshalAny bs = Except.error e) ∨
        (∃ any e, X.unmarshalAny bs = Except.ok any ∧
          UnpackAny X env.ParamTypesRegistry any = Except.error e)) →
      (∃ msg, ((SetParamSet X envId subspaceName p).run w).out
          = Outcome.ret (EncodeResultFromError ErrKind.ExecuteError msg)) ∧
      ((SetParamSet X envId subspaceName p).run w).world = w ∧
      ((SetParamSet X envId subspaceName p).run w).trace
        = [Event.load envId, Event.lock, Event.unlock]) ∧
    (∀ any, env.ParamTypesRegistry.lookup any.TypeUrl = none →
      ∃ e, UnpackAny X env.ParamTypesRegistry any = Except.error e) ∧
    (∀ subspace any pset, X.GetSubspace (w.apps env.App) subspaceName = some subspace →
      X.unmarshalAny bs = Except.ok any →
      UnpackAny X env.ParamTypesRegistry any = Except.ok pset →
      ((SetParamSet X envId subspaceName p).run w).out = Outcome.ret (EncodeResultFromOk []) ∧
      ((SetParamSet X envId subspaceName p).run w).world
        = { w with apps := (Function.update w.apps env.App
              (X.SubspaceSetParamSet subspace env.Ctx pset (w.apps env.App))) } ∧
      ((SetParamSet X envId subspaceName p).run w).trace
        = [Event.load envId, Event.lock, Event.app env.App "SetParamSet", Event.unlock]) := by
  refine ⟨?_, ?_, ?_⟩
  · intro h
    cases hsub : X.GetSubspace (w.apps env.App) subspaceName with
    | none =>
      simp [SetParamSet, loadEnv, Prog.bind, Prog.run, Prog.get, Prog.withLock, Prog.deferUnlock, hreg, hb64, hsub,
        appRead, EncodeResultFromError, encodeErrToResultBytes]
    | some subspace =>
      cases hany : X.unmarshalAny bs with
      | error e =>
        simp [SetParamSet, loadEnv, Prog.bind, Prog.run, Prog.get, Prog.withLock, Prog.deferUnlock, hreg, hb64, hsub,
          hany, appRead, EncodeResultFromError, encodeErrToResultBytes]
      | ok any =>
        rcases h with h | ⟨e, h⟩ | ⟨any2, e, h1, h2⟩
        · rw [hsub] at h
          cases h
        · rw [hany] at h
          cases h
        · rw [hany] at h1
          cases h1
          simp [SetParamSet, loadEnv, Prog.bind, Prog.run, Prog.get, Prog.withLock, Prog.deferUnlock, hreg, hb64, hsub,
            hany, h2, appRead, EncodeResultFromError, encodeErrToResultBytes]
  · intro any h
    simp [UnpackAny, h]
  · intro subspace any pset hsub hany hpset
    simp [SetParamSet, loadEnv, Prog.bind, Prog.run, Prog.get, Prog.withLock, Prog.deferUnlock, hreg, hb64, hsub,
      hany, hpset, appRead, appCall, EncodeResultFromOk, encodeBytesResultBytes]

/-- C5, at an input: in the sample world the payload "AQk=" (type byte 1, value 9)
for the subspace "bank" is applied once and answered by the empty success result. -/
theorem SetParamSet_applies_once_or_not_at_all_witness :
    ((SetParamSet Sample.ext 1 "bank" "AQk=").run Sample.world1).out
        = Outcome.ret (EncodeResultFromOk []) ∧
    (((SetParamSet Sample.ext 1 "bank" "AQk=").run Sample.world1).world.apps 0).params
        = [("bank", { TypeUrl := "/cosmos.bank.v1beta1.Params",
                      Fields := [("DefaultSendEnabled", [9])] })] ∧
    ((SetParamSet Sample.ext 1 "bank" "AQk=").run Sample.world1).trace
        = [Event.load 1, Event.lock, Event.app 0 "SetParamSet", Event.unlock] :=
  ⟨((SetParamSet_applies_once_or_not_at_all Sample.ext Sample.world1 1 "bank" "AQk="
      Sample.env1 [1, 9] rfl rfl).2.2 "bank"
      { TypeUrl := "/cosmos.bank.v1beta1.Params", Value := [9] }
      { TypeUrl := "/cosmos.bank.v1beta1.Params", Fields := [("DefaultSendEnabled", [9])] }
      rfl rfl rfl).1, rfl, rfl⟩

/-- C7: for an identifier that is not a key of the registry, every exported function
that takes an identifier panics, whatever its other arguments, and it does so in its
first step: the only event of the call is the failed lookup (no lock is taken, no
application method is called, nothing is stored) and the world (registry, counter,
application objects) is the one before the call. -/
theorem unknown_id_aborts_before_any_mutation (X : Ext σ) (w : World σ) (c : Call)
    (envId : Nat) (hid : c.envId = some envId) (hreg : w.envRegister envId = none) :
    (∃ msg, ((exec X c).run w).out = Outcome.abort msg) ∧
    ((exec X c).run w).world = w ∧
    ((exec X c).run w).trace = [Event.load envId] := by
  cases c <;> simp [Call.envId] at hid <;> subst hid <;>
  simp [exec, InitAccount, IncreaseTime, BeginBlock, EndBlock, Execute, Query, GetBlockTime,
    GetBlockHeight, AccountSequence, AccountNumber, Simulate, SetParamSet, GetParamSet,
    GetValidatorAddress, GetValidatorPrivateKey, loadEnv, Prog.bind, Prog.run, Prog.get, hreg,
    Prog.goPanic]

/-- C7, at an input: identifier 2 is not registered in the sample world, and `Execute`
on it panics with the world untouched. -/
theorem unknown_id_aborts_before_any_mutation_witness :
    ((exec Sample.ext (Call.Execute 2 "CgF4")).run Sample.world1).out
      = Outcome.abort "interface conversion: interface \x7b\x7d is nil, not testenv.TestEnv" ∧
    ((exec Sample.ext (Call.Execute 2 "CgF4")).run Sample.world1).world = Sample.world1 :=
  ⟨rfl, (unknown_id_aborts_before_any_mutation Sample.ext Sample.world1
    (Call.Execute 2 "CgF4") 2 rfl rfl).2.1⟩

theorem keepsCounter_pure (a : α) : KeepsCounter (Pure.pure a : Prog σ α) := ⟨fun _ => rfl⟩

theorem keepsCounter_bind (x : Prog σ α) (f : α → Prog σ β) (hx : KeepsCounter x)
    (hf : ∀ a, KeepsCounter (f a)) : KeepsCounter (x >>= f) := by
  constructor
  intro w
  simp only [Prog.bind_def, Prog.run_bind]
  cases h : (x.run w).out with
  | ret a => simp only [(hf a).keep (x.run w).world, hx.keep w]
  | abort m => simp only [hx.keep w]

theorem keepsCounter_goPanic (m : String) : KeepsCounter (Prog.goPanic m : Prog σ α) :=
  ⟨fun _ => rfl⟩

theorem keepsCounter_withLock (x : Prog σ α) (hx : KeepsCounter x) :
    KeepsCounter (Prog.withLock x) :=
  ⟨fun w => by simp only [Prog.withLock, Prog.run, Prog.run_deferUnlock, hx.keep w]⟩

theorem keepsCounter_loadEnv (envId : Nat) : KeepsCounter (loadEnv envId : Prog σ TestEnv) := by
  constructor
  intro w
  cases h : w.envRegister envId <;>
  simp [loadEnv, Prog.run, h, Prog.goPanic]

theorem keepsCounter_store (envId : Nat) (env : TestEnv) :
    KeepsCounter (store envId env : Prog σ Unit) := ⟨fun _ => rfl⟩

theorem keepsCounter_appCall (addr : Nat) (m : String) (f : σ → α × σ) :
    KeepsCounter (appCall addr m f) := ⟨fun _ => rfl⟩

theorem keepsCounter_appRead (addr : Nat) (f : σ → α) :
    KeepsCounter (appRead addr f) := ⟨fun _ => rfl⟩

theorem keepsCounter_BeginNewBlock (X : Ext σ) (env : TestEnv) (b : Bool) (n : Nat) :
    KeepsCounter (BeginNewBlock X env b n) := ⟨fun _ => rfl⟩

theorem keepsCounter_EndBlock (X : Ext σ) (envId : Nat) : KeepsCounter (EndBlock X envId) := by
  unfold EndBlock
  repeat' first
    | exact keepsCounter_loadEnv _
    | exact keepsCounter_store _ _
    | exact keepsCounter_appCall _ _ _
    | apply keepsCounter_bind
    | intro _

theorem exec_counter (X : Ext σ) (c : Call) (envId : Nat)
    (hid : c.envId = some envId) : KeepsCounter (exec X c) := by
  cases c <;> simp [Call.envId] at hid <;>
  simp only [exec, InitAccount, IncreaseTime, BeginBlock, Execute, Query, GetBlockTime,
      GetBlockHeight, AccountSequence, AccountNumber, Simulate, SetParamSet, GetParamSet,
      GetValidatorAddress, GetValidatorPrivateKey] <;>
  with_reducible repeat' first
    | exact keepsCounter_loadEnv _
    | exact keepsCounter_store _ _
    | exact keepsCounter_appCall _ _ _
    | exact keepsCounter_appRead _ _
    | exact keepsCounter_BeginNewBlock _ _ _ _
    | exact keepsCounter_EndBlock _ _
    | exact keepsCounter_pure _
    | exact keepsCounter_goPanic _
    | apply keepsCounter_withLock
    | apply keepsCounter_bind
    | intro _
    | split

theorem InitTestEnv_out (X : Ext σ) (now : Int) (w : World σ) :
    ((InitTestEnv X now).run w).out = Outcome.ret ((w.envCounter + 1) % 2 ^ 64) := by
  simp [InitTestEnv, Prog.withLock, Prog.deferUnlock, Prog.bind, Prog.run, Prog.get, Prog.modify, appCall, BeginNewBlock, store]

theorem InitTestEnv_counter (X : Ext σ) (now : Int) (w : World σ) :
    ((InitTestEnv X now).run w).world.envCounter = (w.envCounter + 1) % 2 ^ 64 := by
  simp [InitTestEnv, Prog.withLock, Prog.deferUnlock, Prog.bind, Prog.run, Prog.get, Prog.modify, appCall, BeginNewBlock, store]

theorem exec_InitTestEnv_out (X : Ext σ) (now : Int) (w : World σ) :
    ((exec X (Call.InitTestEnv now)).run w).out
      = Outcome.ret (Value.uint64 ((w.envCounter + 1) % 2 ^ 64)) := by
  simp [exec, InitTestEnv, Prog.withLock, Prog.deferUnlock, Prog.bind, Prog.run, Prog.get, Prog.modify, appCall, BeginNewBlock,
    store]

theorem exec_InitTestEnv_counter (X : Ext σ) (now : Int) (w : World σ) :
    ((exec X (Call.InitTestEnv now)).run w).world.envCounter = (w.envCounter + 1) % 2 ^ 64 := by
  simp [exec, InitTestEnv, Prog.withLock, Prog.deferUnlock, Prog.bind, Prog.run, Prog.get, Prog.modify, appCall, BeginNewBlock,
    store]

theorem createdIds_cons_other (c : Call) (o : Outcome Value) (rest : List (Call × Outcome Value))
    (envId : Nat) (hid : c.envId = some envId) :
    createdIds ((c, o) :: rest) = createdIds rest := by
  cases c <;> simp [Call.envId] at hid <;> simp [createdIds]

theorem creations_cons_other (c : Call) (cs : List Call) (envId : Nat)
    (hid : c.envId = some envId) : creations (c :: cs) = creations cs := by
  cases c <;> simp [Call.envId] at hid <;> simp [creations]

theorem runCalls_createdIds (X : Ext σ) (cs : List Call) :
    ∀ w : World σ, w.envCounter + creations cs < 2 ^ 64 →
      createdIds (runCalls X cs w).1 = List.range' (w.envCounter + 1) (creations cs) ∧
      (runCalls X cs w).2.envCounter = w.envCounter + creations cs := by
  induction cs with
  | nil => intro w _; simp [runCalls, createdIds, creations]
  | cons c cs ih =>
    intro w hb
    cases hc : c.envId with
    | some envId =>
      rw [creations_cons_other c cs envId hc] at hb ⊢
      have hk := (exec_counter X c envId hc).keep w
      have := ih ((exec X c).run w).world (by rw [hk]; exact hb)
      simp only [runCalls, createdIds_cons_other c _ _ envId hc]
      rw [hk] at this
      exact this
    | none =>
      cases c <;> simp [Call.envId] at hc
      rename_i now
      simp only [creations] at hb ⊢
      have hlt : w.envCounter + 1 < 2 ^ 64 := by omega
      have hmod : (w.envCounter + 1) % 2 ^ 64 = w.envCounter + 1 := Nat.mod_eq_of_lt hlt
      have hk := exec_InitTestEnv_counter X now w
      have ho := exec_InitTestEnv_out X now w
      rw [hmod] at hk ho
      have := ih ((exec X (Call.InitTestEnv now)).run w).world (by rw [hk]; omega)
      have hrun : runCalls X (Call.InitTestEnv now :: cs) w
          = ((Call.InitTestEnv now, ((exec X (Call.InitTestEnv now)).run w).out) ::
              (runCalls X cs ((exec X (Call.InitTestEnv now)).run w).world).1,
             (runCalls X cs ((exec X (Call.InitTestEnv now)).run w).world).2) := rfl
      rw [hrun, ho]
      simp only [createdIds]
      rw [this.1, this.2, hk, List.range'_succ]
      constructor
      · rfl
      · omega

/-- C6: in every sequence of calls (started from any world, in particular the initial
one whose counter is 0, and short of the 2^64 creations that would wrap the `uint64`
counter), the identifiers returned by `InitTestEnv` are the previous counter value
plus one each time: they are `envCounter + 1, envCounter + 2, ...` (so 1, 2, ... from
the initial world), strictly increasing, pairwise different and above every
identifier handed out before; no call other than `InitTestEnv` changes the counter. -/
theorem created_identifiers_count_up (X : Ext σ) (cs : List Call) (w : World σ)
    (hbound : w.envCounter + creations cs < 2 ^ 64) :
    createdIds (runCalls X cs w).1 = List.range' (w.envCounter + 1) (creations cs) ∧
    List.Pairwise (fun a b => a < b) (createdIds (runCalls X cs w).1) ∧
    (createdIds (runCalls X cs w).1).Nodup ∧
    (∀ id ∈ createdIds (runCalls X cs w).1, w.envCounter < id) ∧
    (∀ (c : Call) (w0 : World σ), c.envId ≠ none →
      ((exec X c).run w0).world.envCounter = w0.envCounter) ∧
    (∀ (now : Int) (w0 : World σ), w0.envCounter + 1 < 2 ^ 64 →
      ((InitTestEnv X now).run w0).out = Outcome.ret (w0.envCounter + 1) ∧
      ((InitTestEnv X now).run w0).world.envCounter = w0.envCounter + 1) ∧
    (creations cs < 2 ^ 64 →
      createdIds (runCalls X cs (initWorld X)).1 = List.range' 1 (creations cs)) := by
  have h := (runCalls_createdIds X cs w hbound).1
  refine ⟨h, ?_, ?_, ?_, ?_, ?_, ?_⟩
  rotate_right
  · intro hb
    have h0 := (runCalls_createdIds X cs (initWorld X) (by simpa [initWorld] using hb)).1
    simpa [initWorld] using h0
  · rw [h]
    exact List.pairwise_lt_range' _ _
  · rw [h]
    exact List.nodup_range' _ _
  · intro id hid
    rw [h, List.mem_range'_1] at hid
    omega
  · intro c w0 hc
    cases hid : c.envId with
    | none => exact absurd hid hc
    | some envId => exact (exec_counter X c envId hid).keep w0
  · intro now w0 hlt
    have hmod : (w0.envCounter + 1) % 2 ^ 64 = w0.envCounter + 1 := Nat.mod_eq_of_lt hlt
    rw [InitTestEnv_out, InitTestEnv_counter, hmod]
    exact ⟨rfl, rfl⟩

/-- C6, at an input: three creations interleaved with other calls, from the initial
world, return 1, 2 and 3. -/
theorem created_identifiers_count_up_witness :
    createdIds (runCalls Sample.ext
      [Call.InitTestEnv 0, Call.Execute 1 "CgF4", Call.InitTestEnv 5, Call.BeginBlock 1,
        Call.GetBlockHeight 7, Call.InitTestEnv 9] (initWorld Sample.ext)).1 = [1, 2, 3] :=
  (created_identifiers_count_up Sample.ext
    [Call.InitTestEnv 0, Call.Execute 1 "CgF4", Call.InitTestEnv 5, Call.BeginBlock 1,
      Call.GetBlockHeight 7, Call.InitTestEnv 9] (initWorld Sample.ext) (by decide)).1

theorem UnixNano_of_int64 (t : Int) (hlo : -(2 ^ 63) ≤ t) (hhi : t < 2 ^ 63) :
    UnixNano t = t := by
  unfold UnixNano
  rw [Int.emod_eq_of_lt (by omega) (by omega)]
  omega

/-- C8, as stated, fails: the block time of the sample world is in 2023, and after
`IncreaseTime` by 10^10 seconds `GetBlockTime` does not return the previous block
time plus 10^10 seconds, an instant that no `int64` of nanoseconds represents. -/
theorem IncreaseTime_beyond_int64_nanoseconds :
    ((GetBlockTime 1).run Sample.world1).out = Outcome.ret 1700000005000000000 ∧
    ((GetBlockTime 1).run ((IncreaseTime Sample.ext 1 10000000000).run Sample.world1).world).out
      = Outcome.ret (-6746744068709551616) ∧
    (-6746744068709551616 : Int) ≠ 1700000005000000000 + 10000000000 * 1000000000 :=
  ⟨rfl, rfl, by decide⟩

/-- C8, amended: for a registered environment and every time delta in seconds, a
begin-block transition with that delta followed by `EndBlock` (which is what
`IncreaseTime` performs, and what `BeginBlock` then `EndBlock` performs with the
delta 5) leaves the environment with its height advanced by exactly 1 and the block
time of its context advanced by exactly the delta; `GetBlockHeight` then returns the
previous height plus 1, and `GetBlockTime` returns the previous block time plus the
delta whenever both instants are representable as `int64` nanoseconds. -/
theorem block_cycle_advances_height_and_time (X : Ext σ) (w : World σ) (envId : Nat)
    (seconds : Nat) (env : TestEnv) (hreg : w.envRegister envId = some env) :
    ((IncreaseTime X envId seconds).run w).out = Outcome.ret () ∧
    ((IncreaseTime X envId seconds).run w).world
      = ((EndBlock X envId).run
          ((loadEnv envId >>= fun e => BeginNewBlock X e false seconds >>= fun e2 =>
            store envId e2).run w).world).world ∧
    BeginBlock X envId
      = (loadEnv envId >>= fun e => BeginNewBlock X e false 5 >>= fun e2 => store envId e2) ∧
    ((IncreaseTime X envId seconds).run w).world.envRegister envId
      = some { env with Ctx := { env.Ctx with
                BlockHeight := env.Ctx.BlockHeight + 1
                BlockTime := env.Ctx.BlockTime + (seconds : Int) * 1000000000 } } ∧
    ((EndBlock X envId).run ((BeginBlock X envId).run w).world).world.envRegister envId
      = some { env with Ctx := { env.Ctx with
                BlockHeight := env.Ctx.BlockHeight + 1
                BlockTime := env.Ctx.BlockTime + 5 * 1000000000 } } ∧
    ((GetBlockHeight envId).run w).out = Outcome.ret env.Ctx.BlockHeight ∧
    ((GetBlockHeight envId).run ((IncreaseTime X envId seconds).run w).world).out
      = Outcome.ret (env.Ctx.BlockHeight + 1) ∧
    ((GetBlockHeight envId).run ((EndBlock X envId).run ((BeginBlock X envId).run w).world).world).out
      = Outcome.ret (env.Ctx.BlockHeight + 1) ∧
    ((GetBlockTime envId).run w).out = Outcome.ret (UnixNano env.Ctx.BlockTime) ∧
    (-(2 ^ 63) ≤ env.Ctx.BlockTime →
      env.Ctx.BlockTime + (seconds : Int) * 1000000000 < 2 ^ 63 →
      ((GetBlockTime envId).run ((IncreaseTime X envId seconds).run w).world).out
        = Outcome.ret (UnixNano env.Ctx.BlockTime + (seconds : Int) * 1000000000)) ∧
    (-(2 ^ 63) ≤ env.Ctx.BlockTime →
      env.Ctx.BlockTime + 5 * 1000000000 < 2 ^ 63 →
      ((GetBlockTime envId).run ((EndBlock X envId).run ((BeginBlock X envId).run w).world).world).out
        = Outcome.ret (UnixNano env.Ctx.BlockTime + 5 * 1000000000)) := by
  refine ⟨?_, ?_, rfl, ?_, ?_, ?_, ?_, ?_, ?_, ?_, ?_⟩
  · simp [IncreaseTime, EndBlock, BeginBlock, loadEnv, BeginNewBlock, store, appCall, Prog.bind, Prog.run,
      Prog.get, Prog.modify, hreg]
  · simp [IncreaseTime, EndBlock, BeginBlock, loadEnv, BeginNewBlock, store, appCall, Prog.bind, Prog.run,
      Prog.get, Prog.modify, hreg]
  · simp [IncreaseTime, EndBlock, BeginBlock, loadEnv, BeginNewBlock, store, appCall, Prog.bind, Prog.run,
      Prog.get, Prog.modify, hreg]
  · simp [IncreaseTime, EndBlock, BeginBlock, loadEnv, BeginNewBlock, store, appCall, Prog.bind, Prog.run,
      Prog.get, Prog.modify, hreg]
  · simp [GetBlockHeight, loadEnv, Prog.bind, Prog.run, Prog.get, hreg]
  · simp [GetBlockHeight, IncreaseTime, EndBlock, BeginBlock, loadEnv, BeginNewBlock, store,
      appCall, Prog.bind, Prog.run, Prog.get, Prog.modify, hreg]
  · simp [GetBlockHeight, IncreaseTime, EndBlock, BeginBlock, loadEnv, BeginNewBlock, store,
      appCall, Prog.bind, Prog.run, Prog.get, Prog.modify, hreg]
  · simp [GetBlockTime, loadEnv, Prog.bind, Prog.run, Prog.get, hreg]
  · intro hlo hhi
    have h1 : UnixNano env.Ctx.BlockTime = env.Ctx.BlockTime :=
      UnixNano_of_int64 _ hlo (by omega)
    have h2 : UnixNano (env.Ctx.BlockTime + (seconds : Int) * 1000000000)
        = env.Ctx.BlockTime + (seconds : Int) * 1000000000 :=
      UnixNano_of_int64 _ (by omega) hhi
    simp [GetBlockTime, IncreaseTime, EndBlock, BeginBlock, loadEnv, BeginNewBlock, store,
      appCall, Prog.bind, Prog.run, Prog.get, Prog.modify, hreg, h1, h2]
  · intro hlo hhi
    have h1 : UnixNano env.Ctx.BlockTime = env.Ctx.BlockTime :=
      UnixNano_of_int64 _ hlo (by omega)
    have h2 : UnixNano (env.Ctx.BlockTime + 5000000000)
        = env.Ctx.BlockTime + 5000000000 :=
      UnixNano_of_int64 _ (by omega) (by omega)
    simp [GetBlockTime, IncreaseTime, EndBlock, BeginBlock, loadEnv, BeginNewBlock, store,
      appCall, Prog.bind, Prog.run, Prog.get, Prog.modify, hreg, h1, h2]

/-- C8, amended, at an input: from the sample world (height 1, block time
1700000005 s) `IncreaseTime` by 60 seconds gives height 2 and block time
1700000065 s. -/
theorem block_cycle_advances_height_and_time_witness :
    ((GetBlockHeight 1).run ((IncreaseTime Sample.ext 1 60).run Sample.world1).world).out
      = Outcome.ret 2 ∧
    ((GetBlockTime 1).run ((IncreaseTime Sample.ext 1 60).run Sample.world1).world).out
      = Outcome.ret 1700000065000000000 :=
  ⟨(block_cycle_advances_height_and_time Sample.ext Sample.world1 1 60
      Sample.env1 rfl).2.2.2.2.2.2.1,
   (block_cycle_advances_height_and_time Sample.ext Sample.world1 1 60
      Sample.env1 rfl).2.2.2.2.2.2.2.2.2.1 (by decide) (by decide)⟩

/-- C9, as stated, fails: `SetParamSet` on a registered environment applies the
parameter set and returns success without any store into the registry. -/
theorem SetParamSet_stores_nothing :
    ((SetParamSet Sample.ext 1 "bank" "AQk=").run Sample.world1).out
      = Outcome.ret (EncodeResultFromOk []) ∧
    ((SetParamSet Sample.ext 1 "bank" "AQk=").run Sample.world1).trace
      = [Event.load 1, Event.lock, Event.app 0 "SetParamSet", Event.unlock] ∧
    ∀ envId env, Event.store envId env ∉ ((SetParamSet Sample.ext 1 "bank" "AQk=").run Sample.world1).trace := by
  refine ⟨rfl, rfl, ?_⟩
  intro envId env h
  have ht : ((SetParamSet Sample.ext 1 "bank" "AQk=").run Sample.world1).trace
      = [Event.load 1, Event.lock, Event.app 0 "SetParamSet", Event.unlock] := rfl
  rw [ht] at h
  simp at h

/-- C9, amended: for a registered environment, `InitAccount`, `IncreaseTime`,
`BeginBlock`, `EndBlock`, and `Execute` when it delivers the transaction, store the
Environment they end with into the registry under the same identifier before they
return (for `IncreaseTime` and `BeginBlock` it carries the advanced context);
`SetParamSet`, and `Execute` when the request bytes do not unmarshal, store nothing
and leave the stored Environment, of which they changed no field, in place. In
every case the lookup of the identifier after the call yields the Environment the
call ended with. -/
theorem mutating_calls_leave_their_environment_stored (X : Ext σ) (w : World σ)
    (envId : Nat) (env : TestEnv) (hreg : w.envRegister envId = some env) :
    (∀ coinsJson priv s, ((InitAccount X envId coinsJson priv).run w).out = Outcome.ret s →
      Event.store envId env ∈ ((InitAccount X envId coinsJson priv).run w).trace ∧
      ((loadEnv envId).run ((InitAccount X envId coinsJson priv).run w).world).out = Outcome.ret env) ∧
    (∀ seconds,
      ((IncreaseTime X envId seconds).run w).out = Outcome.ret () ∧
      Event.store envId { env with Ctx := { env.Ctx with
          BlockHeight := env.Ctx.BlockHeight + 1
          BlockTime := env.Ctx.BlockTime + (seconds : Int) * 1000000000 } }
        ∈ ((IncreaseTime X envId seconds).run w).trace ∧
      ((loadEnv envId).run ((IncreaseTime X envId seconds).run w).world).out
        = Outcome.ret { env with Ctx := { env.Ctx with
            BlockHeight := env.Ctx.BlockHeight + 1
            BlockTime := env.Ctx.BlockTime + (seconds : Int) * 1000000000 } }) ∧
    (((BeginBlock X envId).run w).out = Outcome.ret () ∧
      Event.store envId { env with Ctx := { env.Ctx with
          BlockHeight := env.Ctx.BlockHeight + 1
          BlockTime := env.Ctx.BlockTime + 5 * 1000000000 } }
        ∈ ((BeginBlock X envId).run w).trace ∧
      ((loadEnv envId).run ((BeginBlock X envId).run w).world).out
        = Outcome.ret { env with Ctx := { env.Ctx with
            BlockHeight := env.Ctx.BlockHeight + 1
            BlockTime := env.Ctx.BlockTime + 5 * 1000000000 } }) ∧
    (((EndBlock X envId).run w).out = Outcome.ret () ∧
      Event.store envId env ∈ ((EndBlock X envId).run w).trace ∧
      ((loadEnv envId).run ((EndBlock X envId).run w).world).out = Outcome.ret env) ∧
    (∀ s r, ((Execute X envId s).run w).out = Outcome.ret r →
      ((loadEnv envId).run ((Execute X envId s).run w).world).out = Outcome.ret env ∧
      (∀ bz, r = EncodeResultFromOk bz → Event.store envId env ∈ ((Execute X envId s).run w).trace) ∧
      (∀ kind msg, r = EncodeResultFromError kind msg →
        (∀ id e, Event.store id e ∉ ((Execute X envId s).run w).trace) ∧
        ((Execute X envId s).run w).world = w)) ∧
    (∀ subspaceName p r, ((SetParamSet X envId subspaceName p).run w).out = Outcome.ret r →
      (∀ id e, Event.store id e ∉ ((SetParamSet X envId subspaceName p).run w).trace) ∧
      ((SetParamSet X envId subspaceName p).run w).world.envRegister = w.envRegister ∧
      ((loadEnv envId).run ((SetParamSet X envId subspaceName p).run w).world).out = Outcome.ret env) := by
  refine ⟨?_, ?_, ?_, ?_, ?_, ?_⟩
  · intro coinsJson priv s
    cases hj : X.jsonUnmarshalCoins coinsJson with
    | error e =>
      simp [InitAccount, loadEnv, Prog.bind, Prog.run, Prog.get, Prog.goPanic, hreg, hj]
    | ok coins =>
      cases hf : (X.FundAccount env.Ctx (X.accAddressOfPrivKey priv) coins (w.apps env.App)).1 <;>
      simp [InitAccount, loadEnv, Prog.bind, Prog.run, Prog.get, Prog.goPanic, hreg, hj, hf, appCall,
        store, Prog.modify]
  · intro seconds
    simp [IncreaseTime, EndBlock, loadEnv, BeginNewBlock, store, appCall, Prog.bind, Prog.run,
      Prog.get, Prog.modify, hreg]
  · simp [BeginBlock, loadEnv, BeginNewBlock, store, appCall, Prog.bind, Prog.run,
      Prog.get, Prog.modify, hreg]
  · simp [EndBlock, loadEnv, store, appCall, Prog.bind, Prog.run, Prog.get, Prog.modify, hreg]
  · intro s r
    cases hb64 : X.base64Decode s with
    | error e =>
      simp [Execute, loadEnv, Prog.bind, Prog.run, Prog.get, Prog.withLock, Prog.deferUnlock, hreg, hb64, Prog.goPanic]
    | ok bs =>
      cases hreq : X.unmarshalRequestDeliverTx bs with
      | error e =>
        simp [Execute, loadEnv, Prog.bind, Prog.run, Prog.get, Prog.withLock, Prog.deferUnlock, hreg, hb64, hreq,
          Prog.goPanic, EncodeResultFromOk, EncodeResultFromError, encodeErrToResultBytes]
        intro h
        subst h
        simp
      | ok req =>
        cases hbz : X.marshalResponseDeliverTx (X.AppDeliverTx req (w.apps env.App)).1 with
        | error e =>
          simp [Execute, loadEnv, Prog.bind, Prog.run, Prog.get, Prog.withLock, Prog.deferUnlock, hreg, hb64, hreq, hbz,
            Prog.goPanic, appCall]
        | ok bz =>
          simp [Execute, loadEnv, Prog.bind, Prog.run, Prog.get, Prog.withLock, Prog.deferUnlock, hreg, hb64, hreq, hbz,
            Prog.goPanic, EncodeResultFromOk, EncodeResultFromError, encodeErrToResultBytes,
            encodeBytesResultBytes, appCall, store, Prog.modify]
          intro h
          subst h
          simp
  · intro subspaceName p r
    cases hb64 : X.base64Decode p with
    | error e =>
      simp [SetParamSet, loadEnv, Prog.bind, Prog.run, Prog.get, Prog.withLock, Prog.deferUnlock, hreg, hb64, Prog.goPanic]
    | ok bs =>
      cases hsub : X.GetSubspace (w.apps env.App) subspaceName with
      | none =>
        simp [SetParamSet, loadEnv, Prog.bind, Prog.run, Prog.get, Prog.withLock, Prog.deferUnlock, hreg, hb64, hsub,
          appRead, hreg]
      | some subspace =>
        cases hany : X.unmarshalAny bs with
        | error e =>
          simp [SetParamSet, loadEnv, Prog.bind, Prog.run, Prog.get, Prog.withLock, Prog.deferUnlock, hreg, hb64, hsub,
            hany, appRead]
        | ok any =>
          cases hp : UnpackAny X env.ParamTypesRegistry any <;>
          simp [SetParamSet, loadEnv, Prog.bind, Prog.run, Prog.get, Prog.withLock, Prog.deferUnlock, hreg, hb64, hsub,
            hany, hp, appRead, appCall]

/-- C9, amended, at an input: `EndBlock` on the sample world stores the Environment
it loaded, and the next lookup yields it. -/
theorem mutating_calls_leave_their_environment_stored_witness :
    Event.store 1 Sample.env1 ∈ ((EndBlock Sample.ext 1).run Sample.world1).trace ∧
    ((loadEnv 1).run ((EndBlock Sample.ext 1).run Sample.world1).world).out
      = Outcome.ret Sample.env1 :=
  (mutating_calls_leave_their_environment_stored Sample.ext Sample.world1 1 Sample.env1
    rfl).2.2.2.1.2

theorem Config.step_swap (c : Config σ α) (b : Bool) :
    c.swap.step b = (c.step (!b)).map Config.swap := by
  obtain ⟨w, h, t1, t2⟩ := c
  cases b
  · cases t2 <;> cases h <;> simp [Config.swap, Config.step, stepThread]
  · cases t1 <;> cases h <;> simp [Config.swap, Config.step, stepThread]

theorem runSchedule_swap (sched : List Bool) :
    ∀ c : Config σ α,
      runSchedule sched c.swap = (runSchedule (sched.map not) c).map Config.swap := by
  induction sched with
  | nil => intro c; rfl
  | cons b bs ih =>
    intro c
    simp only [runSchedule, List.map_cons, Config.step_swap]
    cases c.step (!b) with
    | none => rfl
    | some c1 => exact ih c1

theorem Settles.swap {P : Outcome α → Outcome α → World σ → Prop} {c : Config σ α}
    (h : Settles P c) : Settles (fun o1 o2 w => P o2 o1 w) c.swap := by
  constructor
  intro sched c1 o1 o2 hrun h1 h2
  rw [runSchedule_swap] at hrun
  cases hc : runSchedule (sched.map not) c with
  | none => simp [hc] at hrun
  | some c0 =>
    simp only [hc, Option.map_some', Option.some.injEq] at hrun
    subst hrun
    exact h.final _ c0 o2 o1 hc h2 h1

theorem Prog.Along.first {J : World σ → Prop} (p : Prog σ α) (hp : p.NoLock) :
    ∀ w, p.Along J w → J w := by
  cases p with
  | done o => intro w h; exact h
  | atom e u k => intro w h; exact h.1
  | acquire k => exact absurd hp (by simp [Prog.NoLock])
  | release k => exact absurd hp (by simp [Prog.NoLock])

/-- Without the mutex the application calls of two calls in flight interleave: two
`EndBlock` calls on the same identifier can both start `Commit` on the state either
would leave, and one of the two commits is lost. -/
theorem EndBlock_calls_race_in_the_application :
    (runSchedule [false, false, false, false, true, true, true, true, false, false, true, true]
        ⟨Sample.world1, none, EndBlock Sample.ext 1, EndBlock Sample.ext 1⟩).bind
        Config.ended = some (Outcome.ret (), Outcome.ret ()) ∧
    (runSchedule [false, false, false, false, true, true, true, true, false, false, true, true]
        ⟨Sample.world1, none, EndBlock Sample.ext 1, EndBlock Sample.ext 1⟩).map
        (fun c => (c.world.apps 0).commits) = some 2 ∧
    (((EndBlock Sample.ext 1).run ((EndBlock Sample.ext 1).run Sample.world1).world).world.apps
        0).commits = 3 :=
  ⟨rfl, rfl, rfl⟩

end Lemmas

end TestTube
